import Mathlib

/-!
Verification of the access-control and submission-lifecycle core of the
T23SharingNotes application.

The access-control evaluator is embedded from the row-level-security
policies in `supabase/migrations/20250302173826_turquoise_shore.sql` and
`supabase/migrations/20251103000001_add_feedback.sql`, and from the
storage policies and bucket definition in the file adding file-upload
support.  The submission lifecycle and attachment binding are embedded
from `src/pages/assignments/AssignmentDetail.tsx` (the component holding
`handleFileUpload`, `handleFileRemove`, `onSubmit`,
`handleSubmitAssignment`, `handleDeleteSubmission`, `canSubmit`,
`canEdit`).
-/

namespace SharingNotes

/-- Operations an actor can attempt, matching SQL INSERT/SELECT/UPDATE/DELETE. -/
inductive Operation
  | create
  | read
  | update
  | delete
deriving DecidableEq, Repr

/-- Entity types of the row store, one per table with RLS enabled. -/
inductive EntityType
  | profile
  | note
  | category
  | assignment
  | submission
  | announcement
  | comment
  | feedback
deriving DecidableEq, Repr

/-- Outcome of a policy evaluation. -/
inductive Decision
  | allow
  | deny
deriving DecidableEq, Repr

/-- Attributes of a candidate row that the policies consult: the row id
(policies on `profiles` compare `auth.uid() = id`), the owning account
(`user_id`), and the textual status column (`'draft'`/`'submitted'` on
submissions, `'pending'`/`'reviewed'`/`'resolved'` on feedback; unused
for the other tables). -/
structure Row where
  id : Nat
  owner : Nat
  status : String
deriving DecidableEq, Repr

/-- Result of the SQL comparison `auth.uid() = x`: an unauthenticated
actor has `auth.uid()` NULL and the comparison is never true. -/
def uidEq (actor : Option Nat) (x : Nat) : Bool :=
  match actor with
  | some u => u == x
  | none => false

/-- Whether the actor is authenticated, as tested by policies declared
`TO authenticated`. -/
def isAuthenticated (actor : Option Nat) : Bool :=
  actor.isSome

/-- Access-control evaluator, a direct transcription of the RLS policy
set.  Every table has RLS enabled, so an operation with no matching
policy is denied.  Policies transcribed per table:
profiles: SELECT and UPDATE `auth.uid() = id`; notes: all four
operations `auth.uid() = user_id`; categories/assignments: SELECT for
authenticated; submissions: INSERT/SELECT/UPDATE `auth.uid() = user_id`,
DELETE `auth.uid() = user_id AND status = 'draft'`;
announcements/comments: SELECT for authenticated, INSERT/UPDATE/DELETE
`auth.uid() = user_id`; feedback: INSERT/SELECT `auth.uid() = user_id`,
UPDATE/DELETE `auth.uid() = user_id AND status = 'pending'`. -/
def evaluate (actor : Option Nat) (op : Operation) (ty : EntityType) (row : Row) : Decision :=
  match ty, op with
  | .profile, .read => if uidEq actor row.id then .allow else .deny
  | .profile, .update => if uidEq actor row.id then .allow else .deny
  | .profile, _ => .deny
  | .note, _ => if uidEq actor row.owner then .allow else .deny
  | .category, .read => if isAuthenticated actor then .allow else .deny
  | .category, _ => .deny
  | .assignment, .read => if isAuthenticated actor then .allow else .deny
  | .assignment, _ => .deny
  | .submission, .delete =>
      if uidEq actor row.owner && row.status == "draft" then .allow else .deny
  | .submission, _ => if uidEq actor row.owner then .allow else .deny
  | .announcement, .read => if isAuthenticated actor then .allow else .deny
  | .announcement, _ => if uidEq actor row.owner then .allow else .deny
  | .comment, .read => if isAuthenticated actor then .allow else .deny
  | .comment, _ => if uidEq actor row.owner then .allow else .deny
  | .feedback, .update =>
      if uidEq actor row.owner && row.status == "pending" then .allow else .deny
  | .feedback, .delete =>
      if uidEq actor row.owner && row.status == "pending" then .allow else .deny
  | .feedback, _ => if uidEq actor row.owner then .allow else .deny

/-- Storage object path in the attachments bucket.  The application
uploads to `${user.id}/${Date.now()}.${ext}`, so the first folder
component (`storage.foldername(name)[1]` in the policies) is the
uploading account's id. -/
structure StoragePath where
  ownerSegment : Nat
  rest : String
deriving DecidableEq, Repr

/-- The attachments bucket is created with `public` set to true:
`INSERT INTO storage.buckets (id, name, public) VALUES ('attachments',
'attachments', true)`. -/
def attachmentsBucketPublic : Bool := true

/-- Storage-level evaluator for objects in the attachments bucket.
INSERT/UPDATE/DELETE policies are `TO authenticated` with
`auth.uid()::text = (storage.foldername(name))[1]`.  SELECT is granted
to any authenticated actor by the policy "Authenticated users can view
all attachments"; in addition the bucket is public, so object reads
through the public URL need no authentication at all. -/
def storageEvaluate (actor : Option Nat) (op : Operation) (p : StoragePath) : Decision :=
  match op with
  | .read =>
      if attachmentsBucketPublic then .allow
      else if isAuthenticated actor then .allow
      else .deny
  | .create | .update | .delete =>
      if uidEq actor p.ownerSegment then .allow else .deny

/-- Status column of a submission row: 'draft' or 'submitted'. -/
inductive SubStatus
  | draft
  | submitted
deriving DecidableEq, Repr

/-- The `FileInfo` value the component keeps for an uploaded file
(`{ url, name, type, size }`); `url` stands for the storage path
`${user.id}/${Date.now()}.${ext}` addressed by the public URL. -/
structure FileInfo where
  url : String
  name : String
  mediaType : String
  size : Nat
deriving DecidableEq, Repr

/-- The fields of a submission row that the lifecycle manipulates. -/
structure SubmissionRow where
  content : String
  file : Option FileInfo
  status : SubStatus
deriving DecidableEq, Repr

/-- Lifecycle state for one (assignment, account) pair: the unique
submission row for that pair, or `none` when no row exists. -/
structure LState where
  sub : Option SubmissionRow
deriving DecidableEq, Repr

/-- Errors surfaced by the lifecycle operations, named after the spec's
taxonomy; the component surfaces them as toast messages and disabled
controls.  `storeFailure` stands for an object-store error propagated
out of an upload call. -/
inductive Err
  | permissionDenied
  | notFound
  | lifecycleError
  | payloadTooLarge
  | storeFailure
deriving DecidableEq, Repr

/-- Transcription of `isPast(new Date(assignment.due_date))`: the due
instant is strictly earlier than the current instant. -/
def isPast (due now : Nat) : Bool :=
  decide (due < now)

/-- Guard `canSubmit = submission && submission.status === 'draft' &&
!isOverdue`; the Submit button is rendered only when it holds. -/
def canSubmit (st : LState) (due now : Nat) : Bool :=
  match st.sub with
  | some s => s.status == .draft && !(isPast due now)
  | none => false

/-- Guard `canEdit = !submission || (submission.status === 'draft' &&
!isOverdue)`; the submission form, the Edit button and the Delete
button are rendered only when it holds. -/
def canEdit (st : LState) (due now : Nat) : Bool :=
  match st.sub with
  | none => true
  | some s => s.status == .draft && !(isPast due now)

/-- Body of `onSubmit`: update the existing row's content and file
columns (the update payload does not mention `status`), or insert a new
row with `status: 'draft'`. -/
def onSubmitHandler (content : String) (file : Option FileInfo) (st : LState) : LState :=
  match st.sub with
  | some s => { sub := some { content := content, file := file, status := s.status } }
  | none => { sub := some { content := content, file := file, status := .draft } }

/-- Exposed start-or-update-draft operation: the composition of the
form-availability guard with `onSubmit`.  The form is rendered when
`isEditing || (!submission && canEdit)`, and `isEditing` can only be
set through the Edit button, itself rendered under `canEdit`; so the
operation is available exactly when `canEdit` holds. -/
def startOrUpdateDraft (due now : Nat) (content : String) (file : Option FileInfo)
    (st : LState) : Except Err LState :=
  if canEdit st due now then .ok (onSubmitHandler content file st)
  else .error .lifecycleError

/-- Body of `handleSubmitAssignment`: errors when no submission exists
("You need to create a submission first"), otherwise updates the row to
`status: 'submitted'`. -/
def handleSubmitAssignment (st : LState) : Except Err LState :=
  match st.sub with
  | none => .error .lifecycleError
  | some s => .ok { sub := some { s with status := .submitted } }

/-- Exposed submit operation: the Submit button is rendered only under
`canSubmit`, so the operation is the composition of that guard with
`handleSubmitAssignment`. -/
def submitOp (due now : Nat) (st : LState) : Except Err LState :=
  if canSubmit st due now then handleSubmitAssignment st
  else .error .lifecycleError

/-- Body of `handleDeleteSubmission`: returns silently when no
submission exists, errors when the row is submitted ("You cannot delete
a submitted assignment"), otherwise deletes the row. -/
def handleDeleteSubmission (st : LState) : Except Err LState :=
  match st.sub with
  | none => .ok st
  | some s =>
      if s.status == .submitted then .error .lifecycleError
      else .ok { sub := none }

/-- Exposed delete-draft operation: the Delete button is rendered only
inside the existing-submission branch and under `canEdit`, so the
operation is that guard composed with `handleDeleteSubmission`. -/
def deleteDraft (due now : Nat) (st : LState) : Except Err LState :=
  match st.sub with
  | none => .error .notFound
  | some _ =>
      if canEdit st due now then handleDeleteSubmission st
      else .error .lifecycleError

/-- One invocation of an exposed lifecycle operation, carrying the
assignment's due instant and the current instant observed at the call. -/
inductive LOp
  | draftOp (due now : Nat) (content : String) (file : Option FileInfo)
  | submitAct (due now : Nat)
  | deleteAct (due now : Nat)
deriving DecidableEq, Repr

/-- Resulting state of one operation: a failed operation leaves the
state unchanged. -/
def applyOp (op : LOp) (st : LState) : LState :=
  match op with
  | .draftOp due now content file =>
      match startOrUpdateDraft due now content file st with
      | .ok st' => st'
      | .error _ => st
  | .submitAct due now =>
      match submitOp due now st with
      | .ok st' => st'
      | .error _ => st
  | .deleteAct due now =>
      match deleteDraft due now st with
      | .ok st' => st'
      | .error _ => st

/-- Resulting state of a sequence of operations, applied left to right. -/
def applyOps (ops : List LOp) (st : LState) : LState :=
  ops.foldl (fun s op => applyOp op s) st

/-- Whether the state holds a submitted row. -/
def submittedB (st : LState) : Bool :=
  match st.sub with
  | some s => s.status == .submitted
  | none => false

/-- The size ceiling checked by `handleFileUpload`:
`const maxSize = 50 * 1024 * 1024`. -/
def maxSize : Nat := 50 * 1024 * 1024

/-- A candidate file chosen in the file input: its display name,
media type and byte size. -/
structure CandidateFile where
  name : String
  mediaType : String
  size : Nat
deriving DecidableEq, Repr

/-- Transcription of `file.name.split('.').pop()`: the last
dot-separated component of the file name. -/
def fileExtension (name : String) : String :=
  (name.splitOn ".").getLastD ""

/-- Storage path built by `handleFileUpload`:
`${user.id}/${Date.now()}.${fileExt}`. -/
def uploadPath (uid ts : Nat) (file : CandidateFile) : String :=
  toString uid ++ "/" ++ toString ts ++ "." ++ fileExtension file.name

/-- Attachment-binding state around one submission form: the set of
object paths present in the attachments bucket, the component's local
`uploadedFile` value, and the file reference stored on the submission
row (`file_url`/`file_name`/`file_type`/`file_size`), which only
changes when `onSubmit` saves. -/
structure BindState where
  store : List String
  uploadedFile : Option FileInfo
  rowFile : Option FileInfo
deriving DecidableEq, Repr

/-- Transcription of `handleFileUpload`: reject a file larger than
50 MiB before contacting storage; otherwise upload to
`uploadPath uid ts file` (with `upsert: false`, so a failed call writes
nothing) and on success record the new `uploadedFile`.  `storeOk` is
whether the object store accepts the write. -/
def handleFileUpload (uid ts : Nat) (file : CandidateFile) (storeOk : Bool)
    (st : BindState) : BindState × Option Err :=
  if file.size > maxSize then (st, some .payloadTooLarge)
  else if storeOk then
    let p := uploadPath uid ts file
    ({ st with
        store := p :: st.store,
        uploadedFile := some { url := p, name := file.name,
                               mediaType := file.mediaType, size := file.size } }, none)
  else (st, some .storeFailure)

/-- Transcription of `handleFileRemove`: return immediately when no
file is bound (`if (!uploadedFile) return`); otherwise delete the
object at the path recovered from the URL's last two segments and
clear `uploadedFile`. -/
def handleFileRemove (st : BindState) : BindState × Option Err :=
  match st.uploadedFile with
  | none => (st, none)
  | some f => ({ st with store := st.store.erase f.url, uploadedFile := none }, none)

/-- The part of `onSubmit`'s update payload that concerns the
attachment: the row's file columns are overwritten with
`uploadedFile?.url || null` and friends. -/
def saveRowFile (st : BindState) : BindState :=
  { st with rowFile := st.uploadedFile }

/-- Exposed unbind operation: remove the bound object
(`handleFileRemove`) and persist the cleared reference on the row
(`onSubmit`'s update of the file columns). -/
def unbindAttachment (st : BindState) : BindState × Option Err :=
  match handleFileRemove st with
  | (st1, none) => (saveRowFile st1, none)
  | (st1, some e) => (st1, some e)

/-- Exposed rebind operation as the component performs it: the user
removes the current file (`handleFileRemove`, which deletes the old
object at once) and then uploads the replacement (`handleFileUpload`). -/
def rebindAttachment (uid ts : Nat) (file : CandidateFile) (storeOk : Bool)
    (st : BindState) : BindState × Option Err :=
  match handleFileRemove st with
  | (st1, none) => handleFileUpload uid ts file storeOk st1
  | (st1, some e) => (st1, some e)

/-!
Theorems settling the claims.
-/

/-- C1, counterexample.  The claim states that the update evaluation on
a Submission allows only the owner of a draft row and that
`evaluate(U1, update, Submission, S1)` is deny once `S1` is submitted.
The transcribed policy "Users can update their own submissions" tests
only `auth.uid() = user_id`, so the owner of a submitted row is
allowed. -/
theorem submission_update_allows_submitted_owner :
    evaluate (some 1) .update .submission { id := 7, owner := 1, status := "submitted" }
      = .allow ∧
    evaluate (some 1) .update .submission { id := 7, owner := 1, status := "submitted" }
      ≠ .deny := by
  constructor
  · rfl
  · decide

/-- C1, amended.  Update on a Submission row is allowed exactly when
the actor is the row's owner, with the status column not consulted;
only delete additionally requires the row to be a draft. -/
theorem submission_update_delete_characterization (actor : Option Nat) (row : Row) :
    (evaluate actor .update .submission row = .allow ↔ actor = some row.owner) ∧
    (evaluate actor .delete .submission row = .allow ↔
      actor = some row.owner ∧ row.status = "draft") := by
  constructor
  · cases actor with
    | none => simp [evaluate, uidEq]
    | some u =>
        simp only [evaluate, uidEq]
        constructor
        · intro h
          by_cases hu : u == row.owner
          · have : u = row.owner := by simpa using hu
            simp [this]
          · simp [hu] at h
        · intro h
          have : u = row.owner := by simpa using h
          simp [this]
  · cases actor with
    | none => simp [evaluate, uidEq]
    | some u =>
        simp only [evaluate, uidEq]
        constructor
        · intro h
          by_cases hu : u == row.owner
          · by_cases hs : row.status == "draft"
            · have : u = row.owner := by simpa using hu
              exact ⟨by simp [this], by simpa using hs⟩
            · simp [hu, hs] at h
          · simp [hu] at h
        · rintro ⟨h1, h2⟩
          have : u = row.owner := by simpa using h1
          simp [this, h2]

/-- C1, witness for the amended theorem at a concrete actor and row. -/
theorem submission_update_delete_characterization_witness :
    (evaluate (some 4) .update .submission { id := 9, owner := 4, status := "submitted" }
        = .allow ↔ (some 4 : Option Nat) = some 4) ∧
    (evaluate (some 4) .delete .submission { id := 9, owner := 4, status := "submitted" }
        = .allow ↔ (some 4 : Option Nat) = some 4 ∧ "submitted" = "draft") :=
  submission_update_delete_characterization (some 4) { id := 9, owner := 4, status := "submitted" }

/-- C4, counterexample.  The claim states that an unauthenticated
actor's evaluation returns deny for every entity type, including
Attachment storage objects, and every operation.  The attachments
bucket is created public, so an unauthenticated read of a stored object
is allowed. -/
theorem anonymous_storage_read_allowed :
    storageEvaluate none .read { ownerSegment := 1, rest := "10.png" } = .allow ∧
    storageEvaluate none .read { ownerSegment := 1, rest := "10.png" } ≠ .deny := by
  constructor
  · rfl
  · decide

/-- C4, amended.  An unauthenticated actor is denied every operation on
every row-store entity, and denied create, update and delete on
Attachment storage objects; but reading a storage object is allowed to
everyone because the attachments bucket is public.  (Initial account
creation happens in the authentication collaborator, outside the
evaluator.) -/
theorem anonymous_denied_except_storage_read (op : Operation) (ty : EntityType)
    (row : Row) (p : StoragePath) :
    evaluate none op ty row = .deny ∧
    storageEvaluate none .create p = .deny ∧
    storageEvaluate none .update p = .deny ∧
    storageEvaluate none .delete p = .deny ∧
    storageEvaluate none .read p = .allow := by
  refine ⟨?_, rfl, rfl, rfl, rfl⟩
  cases ty <;> cases op <;> simp [evaluate, uidEq, isAuthenticated]

/-- C5.  On Note, Announcement, Comment, Feedback and Submission rows,
an actor who is not the row's owner is denied update and delete,
whatever the status column holds. -/
theorem non_owner_denied_update_delete (actor : Option Nat) (row : Row)
    (h : actor ≠ some row.owner) :
    evaluate actor .update .note row = .deny ∧
    evaluate actor .delete .note row = .deny ∧
    evaluate actor .update .announcement row = .deny ∧
    evaluate actor .delete .announcement row = .deny ∧
    evaluate actor .update .comment row = .deny ∧
    evaluate actor .delete .comment row = .deny ∧
    evaluate actor .update .feedback row = .deny ∧
    evaluate actor .delete .feedback row = .deny ∧
    evaluate actor .update .submission row = .deny ∧
    evaluate actor .delete .submission row = .deny := by
  have huid : uidEq actor row.owner = false := by
    cases actor with
    | none => rfl
    | some u =>
        have hne : u ≠ row.owner := fun he => h (by simp [he])
        simp [uidEq, hne]
  refine ⟨?_, ?_, ?_, ?_, ?_, ?_, ?_, ?_, ?_, ?_⟩ <;> simp [evaluate, huid]

/-- C5, witness: actor 2 is denied update and delete on a row owned by
account 1. -/
theorem non_owner_denied_update_delete_witness :
    evaluate (some 2) .update .note { id := 3, owner := 1, status := "" } = .deny ∧
    evaluate (some 2) .delete .note { id := 3, owner := 1, status := "" } = .deny ∧
    evaluate (some 2) .update .announcement { id := 3, owner := 1, status := "" } = .deny ∧
    evaluate (some 2) .delete .announcement { id := 3, owner := 1, status := "" } = .deny ∧
    evaluate (some 2) .update .comment { id := 3, owner := 1, status := "" } = .deny ∧
    evaluate (some 2) .delete .comment { id := 3, owner := 1, status := "" } = .deny ∧
    evaluate (some 2) .update .feedback { id := 3, owner := 1, status := "" } = .deny ∧
    evaluate (some 2) .delete .feedback { id := 3, owner := 1, status := "" } = .deny ∧
    evaluate (some 2) .update .submission { id := 3, owner := 1, status := "" } = .deny ∧
    evaluate (some 2) .delete .submission { id := 3, owner := 1, status := "" } = .deny :=
  non_owner_denied_update_delete (some 2) { id := 3, owner := 1, status := "" } (by decide)

/-- C2.  When the assignment's due instant is strictly earlier than the
current instant, the submit operation fails with a lifecycle error and
leaves the state, in particular a draft submission's status,
unchanged. -/
theorem submit_rejected_after_due (due now : Nat) (st : LState) (h : due < now) :
    submitOp due now st = .error .lifecycleError ∧
    applyOp (.submitAct due now) st = st := by
  have hc : canSubmit st due now = false := by
    cases hs : st.sub with
    | none => simp [canSubmit, hs]
    | some s => simp [canSubmit, hs, isPast, h]
  exact ⟨by simp [submitOp, hc], by simp [applyOp, submitOp, hc]⟩

/-- C2, witness: due instant 0, current instant 1, a draft submission
present. -/
theorem submit_rejected_after_due_witness :
    0 < 1 ∧
    (submitOp 0 1 { sub := some { content := "w", file := none, status := .draft } }
        = .error .lifecycleError ∧
      applyOp (.submitAct 0 1) { sub := some { content := "w", file := none, status := .draft } }
        = { sub := some { content := "w", file := none, status := .draft } }) :=
  ⟨by decide,
   submit_rejected_after_due 0 1 { sub := some { content := "w", file := none, status := .draft } }
     (by decide)⟩

/-- C3, evaluation at the failing input.  With the due instant (0)
already past the current instant's predecessor (now 1) and no existing
submission, the start-or-update-draft operation succeeds and creates a
draft row, because `canEdit` is true whenever no submission exists; and
the backend insert policy also allows the owner's insert, with no
due-date condition.  The claim (and the component's own unreachable
"overdue and can no longer be submitted" branch) say the call must fail
with a lifecycle error and create no row. -/
theorem overdue_start_creates_draft :
    startOrUpdateDraft 0 1 "late work" none { sub := none }
      = .ok { sub := some { content := "late work", file := none, status := .draft } } ∧
    isPast 0 1 = true ∧
    evaluate (some 1) .create .submission { id := 0, owner := 1, status := "draft" }
      = .allow := by
  exact ⟨rfl, rfl, rfl⟩

/-- Helper for the lifecycle invariant: every operation leaves a state
holding a submitted row unchanged (`canEdit` and `canSubmit` are false
on a submitted row, and the delete handler rejects it). -/
theorem applyOp_fixes_submitted (op : LOp) (st : LState) (h : submittedB st = true) :
    applyOp op st = st := by
  cases hsub : st.sub with
  | none => simp [submittedB, hsub] at h
  | some s =>
      have hstat : s.status = .submitted := by
        have := h
        simp [submittedB, hsub] at this
        simpa using this
      cases op with
      | draftOp due now content file =>
          have : canEdit st due now = false := by simp [canEdit, hsub, hstat]
          simp [applyOp, startOrUpdateDraft, this]
      | submitAct due now =>
          have : canSubmit st due now = false := by simp [canSubmit, hsub, hstat]
          simp [applyOp, submitOp, this]
      | deleteAct due now =>
          have : canEdit st due now = false := by simp [canEdit, hsub, hstat]
          simp [applyOp, deleteDraft, hsub, this]

/-- C6.  Under every sequence of exposed lifecycle operations, a state
holding a submitted row still holds a submitted row afterwards: no
operation moves a submission from submitted back to draft. -/
theorem submitted_never_reverts (ops : List LOp) (st : LState) (h : submittedB st = true) :
    submittedB (applyOps ops st) = true := by
  induction ops generalizing st with
  | nil => simpa [applyOps] using h
  | cons op rest ih =>
      have hfix : applyOp op st = st := applyOp_fixes_submitted op st h
      have : applyOps (op :: rest) st = applyOps rest (applyOp op st) := rfl
      rw [this, hfix]
      exact ih st h

/-- C6, witness: a submitted state, run through a draft update, a
delete and a submit, is still submitted. -/
theorem submitted_never_reverts_witness :
    submittedB { sub := some { content := "done", file := none, status := .submitted } } = true ∧
    submittedB (applyOps [.draftOp 9 3 "x" none, .deleteAct 9 3, .submitAct 9 3]
        { sub := some { content := "done", file := none, status := .submitted } }) = true :=
  ⟨rfl,
   submitted_never_reverts [.draftOp 9 3 "x" none, .deleteAct 9 3, .submitAct 9 3]
     { sub := some { content := "done", file := none, status := .submitted } } rfl⟩

/-- C10.  A row produced by any operation from a state with no row has
status draft (the only creation path inserts `status: 'draft'`), and a
submitted row in a result state comes either from an already submitted
row or from the submit operation. -/
theorem submission_rows_created_draft (op : LOp) (st : LState) (s : SubmissionRow)
    (h : (applyOp op st).sub = some s) :
    (st.sub = none → s.status = .draft) ∧
    (s.status = .submitted →
      (∃ s0, st.sub = some s0 ∧ s0.status = .submitted) ∨
      ∃ due now, op = LOp.submitAct due now) := by
  cases op with
  | draftOp due now content file =>
      cases hsub : st.sub with
      | none =>
          have hres : applyOp (.draftOp due now content file) st
              = { sub := some { content := content, file := file, status := .draft } } := by
            simp [applyOp, startOrUpdateDraft, canEdit, hsub, onSubmitHandler]
          rw [hres] at h
          simp only [Option.some.injEq] at h
          refine ⟨fun _ => ?_, fun hsubm => ?_⟩
          · rw [← h]
          · rw [← h] at hsubm
            simp at hsubm
      | some s0 =>
          by_cases hce : canEdit st due now = true
          · have hres : applyOp (.draftOp due now content file) st
                = { sub := some { content := content, file := file, status := s0.status } } := by
              simp [applyOp, startOrUpdateDraft, hce, onSubmitHandler, hsub]
            rw [hres] at h
            simp only [Option.some.injEq] at h
            refine ⟨fun habs => by simp at habs, fun hsubm => Or.inl ⟨s0, rfl, ?_⟩⟩
            rw [← h] at hsubm
            simpa using hsubm
          · have hres : applyOp (.draftOp due now content file) st = st := by
              simp [applyOp, startOrUpdateDraft, hce]
            rw [hres, hsub] at h
            simp only [Option.some.injEq] at h
            refine ⟨fun habs => by simp at habs, fun hsubm => Or.inl ⟨s0, rfl, ?_⟩⟩
            rw [h]
            exact hsubm
  | submitAct due now =>
      refine ⟨fun hnone => ?_, fun _ => Or.inr ⟨due, now, rfl⟩⟩
      have hres : applyOp (.submitAct due now) st = st := by
        simp [applyOp, submitOp, canSubmit, hnone]
      rw [hres, hnone] at h
      exact Option.noConfusion h
  | deleteAct due now =>
      cases hsub : st.sub with
      | none =>
          have hres : applyOp (.deleteAct due now) st = st := by
            simp [applyOp, deleteDraft, hsub]
          rw [hres, hsub] at h
          exact Option.noConfusion h
      | some s0 =>
          have hres : applyOp (.deleteAct due now) st = st ∨
              applyOp (.deleteAct due now) st = { sub := none } := by
            by_cases hce : canEdit st due now = true
            · by_cases hs0 : s0.status = .submitted
              · exact Or.inl (by
                  simp [applyOp, deleteDraft, hsub, hce, handleDeleteSubmission, hs0])
              · exact Or.inr (by
                  simp [applyOp, deleteDraft, hsub, hce, handleDeleteSubmission, hs0])
            · exact Or.inl (by simp [applyOp, deleteDraft, hsub, hce])
          rcases hres with hres | hres
          · rw [hres, hsub] at h
            simp only [Option.some.injEq] at h
            refine ⟨fun habs => by simp at habs, fun hsubm => Or.inl ⟨s0, rfl, ?_⟩⟩
            rw [h]
            exact hsubm
          · rw [hres] at h
            simp at h

/-- C10, witness: submitting an existing draft produces a submitted row
through the submit operation. -/
theorem submission_rows_created_draft_witness :
    (({ sub := some { content := "w", file := none, status := .draft } } : LState).sub = none →
      SubStatus.submitted = .draft) ∧
    (SubStatus.submitted = .submitted →
      (∃ s0, ({ sub := some { content := "w", file := none, status := .draft } } : LState).sub
          = some s0 ∧ s0.status = .submitted) ∨
      ∃ due now, LOp.submitAct 5 3 = LOp.submitAct due now) :=
  submission_rows_created_draft (.submitAct 5 3)
    { sub := some { content := "w", file := none, status := .draft } }
    { content := "w", file := none, status := .submitted } rfl

/-- C7.  A candidate file whose byte size exceeds 50 MiB is rejected
before the object store is contacted: the upload returns the
payload-too-large error and the whole binding state, in particular the
object store and the row's attachment reference, is unchanged. -/
theorem oversize_upload_rejected (uid ts : Nat) (file : CandidateFile) (storeOk : Bool)
    (st : BindState) (h : file.size > maxSize) :
    handleFileUpload uid ts file storeOk st = (st, some .payloadTooLarge) := by
  simp [handleFileUpload, h]

/-- Concrete 60 MiB candidate file. -/
def sixtyMiBFile : CandidateFile :=
  { name := "big.zip", mediaType := "application/zip", size := 60 * 1024 * 1024 }

/-- Empty binding state used as a witness input. -/
def emptyBindState : BindState :=
  { store := [], uploadedFile := none, rowFile := none }

/-- C7, witness at a 60 MiB payload. -/
theorem oversize_upload_rejected_witness :
    sixtyMiBFile.size > maxSize ∧
    handleFileUpload 1 10 sixtyMiBFile true emptyBindState
      = (emptyBindState, some .payloadTooLarge) :=
  ⟨by decide, oversize_upload_rejected 1 10 sixtyMiBFile true emptyBindState (by decide)⟩

/-- Concrete descriptor and binding state used to exercise the
attachment operations: account 1 with one bound object. -/
def boundFile : FileInfo :=
  { url := "1/10.pdf", name := "old.pdf", mediaType := "application/pdf", size := 5 }

/-- Binding state in which `boundFile` is stored, locally selected and
referenced by the submission row. -/
def boundState : BindState :=
  { store := ["1/10.pdf"], uploadedFile := some boundFile, rowFile := some boundFile }

/-- Replacement candidate used for the rebind scenario. -/
def replacementFile : CandidateFile :=
  { name := "new.pdf", mediaType := "application/pdf", size := 7 }

/-- C8, counterexample.  The claim states that rebind is transactional:
when the later bind fails, the original binding is left untouched.  In
the code the removal deletes the old object immediately, so a failed
upload leaves the store without the old object, the local reference
cleared, and the row still pointing at the deleted object. -/
theorem rebind_failure_loses_original :
    (rebindAttachment 1 20 replacementFile false boundState).2 = some Err.storeFailure ∧
    (rebindAttachment 1 20 replacementFile false boundState).1 ≠ boundState ∧
    (rebindAttachment 1 20 replacementFile false boundState).1.store = [] ∧
    (rebindAttachment 1 20 replacementFile false boundState).1.rowFile = some boundFile := by
  refine ⟨rfl, ?_, rfl, rfl⟩
  decide

/-- C8, amended.  Rebind is not transactional: the unbind step deletes
the old object at once; when the later bind fails, the operation
reports the store failure with the old object already removed from the
store and the local attachment reference cleared, while the row's
stored reference is left as it was, dangling at the removed object. -/
theorem rebind_failure_behavior (uid ts : Nat) (file : CandidateFile) (st : BindState)
    (f : FileInfo) (hb : st.uploadedFile = some f) (hs : file.size ≤ maxSize) :
    rebindAttachment uid ts file false st
      = ({ store := st.store.erase f.url, uploadedFile := none, rowFile := st.rowFile },
         some .storeFailure) := by
  have hns : ¬ file.size > maxSize := Nat.not_lt.mpr hs
  simp [rebindAttachment, handleFileRemove, hb, handleFileUpload, hns]

/-- C8, witness for the amended theorem at the concrete bound state. -/
theorem rebind_failure_behavior_witness :
    boundState.uploadedFile = some boundFile ∧ replacementFile.size ≤ maxSize ∧
    rebindAttachment 1 20 replacementFile false boundState
      = ({ store := boundState.store.erase boundFile.url, uploadedFile := none,
           rowFile := boundState.rowFile }, some .storeFailure) :=
  ⟨rfl, by decide,
   rebind_failure_behavior 1 20 replacementFile boundState boundFile rfl (by decide)⟩

/-- C9.  Unbinding a bound descriptor removes the stored object and
clears both the local and the row-level attachment reference, returning
no error; unbinding a fully cleared state is a no-op returning no
error; and unbind is idempotent: a second unbind returns the first
result unchanged, again with no error. -/
theorem unbind_removes_and_idempotent (st : BindState) (f : FileInfo) :
    (st.uploadedFile = some f →
      unbindAttachment st
        = ({ store := st.store.erase f.url, uploadedFile := none, rowFile := none }, none)) ∧
    (st.uploadedFile = none → st.rowFile = none → unbindAttachment st = (st, none)) ∧
    unbindAttachment (unbindAttachment st).1 = ((unbindAttachment st).1, none) := by
  refine ⟨fun hb => ?_, fun hu hr => ?_, ?_⟩
  · simp [unbindAttachment, handleFileRemove, hb, saveRowFile]
  · have hsave : saveRowFile st = st := by
      cases st
      simp_all [saveRowFile]
    simp [unbindAttachment, handleFileRemove, hu, hsave]
  · cases hb : st.uploadedFile with
    | none => simp [unbindAttachment, handleFileRemove, hb, saveRowFile]
    | some f0 => simp [unbindAttachment, handleFileRemove, hb, saveRowFile]

/-- C9, witness at the concrete bound state and descriptor. -/
theorem unbind_removes_and_idempotent_witness :
    unbindAttachment boundState
      = ({ store := boundState.store.erase boundFile.url, uploadedFile := none,
           rowFile := none }, none) ∧
    unbindAttachment (unbindAttachment boundState).1
      = ((unbindAttachment boundState).1, none) :=
  ⟨(unbind_removes_and_idempotent boundState boundFile).1 rfl,
   (unbind_removes_and_idempotent boundState boundFile).2.2⟩

end SharingNotes
